import Mathlib

/-!
Shallow embedding of the rendering core of `jbl` (`src/render.rs`) and
proofs about it.

Conventions of the embedding:
* Rust strings are modelled as `List Char` (Rust iterates `chars()`; byte
  lengths are recovered with `utf8_len`).
* `u8`/`u32`/`usize` values are modelled as `ℕ`, `i32` as `ℤ` (the program
  never approaches the width bounds except where noted; where wrap-around
  or panic matters it is called out explicitly).
* `f32` quantities are modelled as exact rationals `ℚ`; the literal `1.2`
  of the source is the rational `6/5`. `x as u32` on a nonnegative float is
  truncation toward zero, modelled as `Int.toNat ∘ Int.floor`.
* `panic!` is modelled as `Except.error` carrying the panic message.
-/

namespace Jbl

/-! ## Color parsing (`render.rs` lines 126-160) -/

/-- Model of the character class `[a-fA-F0-9]` of the regex in
`Metrics::new` (`render.rs` line 126), by code point: `'0'-'9'` is 48-57,
`'a'-'f'` is 97-102, `'A'-'F'` is 65-70. -/
def is_hex_digit (c : Char) : Bool :=
  (48 ≤ c.toNat && c.toNat ≤ 57) || (97 ≤ c.toNat && c.toNat ≤ 102) ||
    (65 ≤ c.toNat && c.toNat ≤ 70)

/-- Model of `hex_color_regex.is_match` for the anchored regex
`^#([a-fA-F0-9]{6}|[a-fA-F0-9]{3})$` (`render.rs` lines 126-127): the string
is `#` followed by exactly six or exactly three hex digits. -/
def hex_color_match : List Char → Bool
  | c :: rest =>
      c == '#' && (rest.length == 6 || rest.length == 3) && rest.all is_hex_digit
  | [] => false

/-- Spec-side rendering of the regular language
`^#([0-9a-fA-F]{6}|[0-9a-fA-F]{3})$` used by the specification, stated
over code points (48-57 = `0`-`9`, 97-102 = `a`-`f`, 65-70 = `A`-`F`). -/
def in_hex_lang (s : List Char) : Prop :=
  ∃ ds, s = '#' :: ds ∧ (ds.length = 6 ∨ ds.length = 3) ∧
    ∀ c ∈ ds,
      (48 ≤ c.toNat ∧ c.toNat ≤ 57) ∨ (97 ≤ c.toNat ∧ c.toNat ≤ 102) ∨
        (65 ≤ c.toNat ∧ c.toNat ≤ 70)

/-- Numeric value of one hex digit, as `u32::from_str_radix(-, 16)` assigns
it (digits, then lowercase letters, then uppercase letters); non-digits map
to 0, a case `from_str_radix` answers with an error instead — `hex_val` is
only ever applied under the regex guard, where it never happens. -/
def hex_digit_val (c : Char) : ℕ :=
  if 48 ≤ c.toNat ∧ c.toNat ≤ 57 then c.toNat - 48
  else if 97 ≤ c.toNat ∧ c.toNat ≤ 102 then c.toNat - 97 + 10
  else if 65 ≤ c.toNat ∧ c.toNat ≤ 70 then c.toNat - 65 + 10
  else 0

/-- Model of `u32::from_str_radix(&hex, 16)` (`render.rs` line 154) on its
success path: base-16 positional evaluation, left to right. -/
def hex_val (ds : List Char) : ℕ :=
  ds.foldl (fun acc c => acc * 16 + hex_digit_val c) 0

/-- Model of the nibble-duplication branch of `hex_to_rgb`
(`render.rs` lines 147-153): a 3-character digit string is expanded by
repeating every character twice; anything else is kept as is. -/
def expand_hex (ds : List Char) : List Char :=
  if ds.length = 3 then ds.flatMap (fun c => [c, c]) else ds

/-- Model of `hex_to_rgb` (`render.rs` lines 145-160): drop the leading `#`,
expand a 3-digit form, parse as a base-16 integer and extract the three
8-bit channels. -/
def hex_to_rgb (s : List Char) : ℕ × ℕ × ℕ :=
  let hex := expand_hex (s.drop 1)
  let rgb := hex_val hex
  ((rgb >>> 16) &&& 0xFF, (rgb >>> 8) &&& 0xFF, rgb &&& 0xFF)

/-! ## Parameter model (`render.rs` lines 9-17 and 108-143) -/

/-- Model of `cosmic_text::Family` as consumed by `Metrics::new`
(`render.rs` lines 117-124). -/
inductive Family where
  | Serif
  | SansSerif
  | Cursive
  | Fantasy
  | Monospace
  | Name (s : String)
deriving DecidableEq

/-- Model of the font-name `match` in `Metrics::new`
(`render.rs` lines 117-124). -/
def resolve_family (s : String) : Family :=
  if s = "Serif" then .Serif
  else if s = "SansSerif" then .SansSerif
  else if s = "Cursive" then .Cursive
  else if s = "Fantasy" then .Fantasy
  else if s = "Monospace" then .Monospace
  else .Name s

/-- Model of the `Metrics` descriptor (`render.rs` lines 9-17). -/
structure Metrics where
  text : String
  font : Family
  size : ℚ
  color : ℕ × ℕ × ℕ
  bg_color : ℕ × ℕ × ℕ
  padding : ℕ
deriving DecidableEq

/-- Model of `Metrics::new` (`render.rs` lines 108-143). The `panic!` on a
color that fails the regex is modelled as `Except.error` carrying the exact
panic message. -/
def Metrics.new (text font : String) (size : ℚ) (color bg_color : String)
    (padding : ℕ) : Except String Metrics :=
  if !hex_color_match color.toList || !hex_color_match bg_color.toList then
    Except.error "The color input must be in a legal hexadecimal format!"
  else
    Except.ok
      { text := text
        font := resolve_family font
        size := size
        color := hex_to_rgb color.toList
        bg_color := hex_to_rgb bg_color.toList
        padding := padding }

/-! ## Layout: newline scan and longest-line fold (`render.rs` lines 25-48) -/

/-- Number of bytes of one character in UTF-8, by code-point range; Rust's
`String::len` (`self.text.len()`, `render.rs` line 33) counts these bytes. -/
def char_utf8_size (c : Char) : ℕ :=
  if c.toNat < 0x80 then 1
  else if c.toNat < 0x800 then 2
  else if c.toNat < 0x10000 then 3
  else 4

/-- UTF-8 byte length of a text, the value of Rust's `String::len`. -/
def utf8_len (t : List Char) : ℕ :=
  (t.map char_utf8_size).sum

/-- Model of `carrige_pos` (`render.rs` lines 25-30) restricted to the
indices: the character positions of the `'\n'` characters of the text, in
increasing order, from `chars().enumerate().filter(..)`. -/
def newline_positions (t : List Char) : List ℕ :=
  (t.enum.filter (fun p => p.2 == '\n')).map Prod.fst

/-- The `(pre, idx)` pairs the fold of `render.rs` lines 35-41 subtracts:
`pre` starts at 0 and afterwards is the previous newline position, `idx`
runs over the newline positions. -/
def fold_steps (ps : List ℕ) : List (ℕ × ℕ) :=
  (0 :: ps).zip ps

/-- Model of `max_line_length` (`render.rs` lines 32-42): byte length of the
text when it has no newline, otherwise the fold computing
`max(idx - pre - 1)` over the newline positions. The `usize` subtraction
`*idx - pre - 1` is modelled by truncated `ℕ` subtraction; in Rust it
panics (debug) or wraps (release) when `idx < pre + 1`, which
`line_fold_underflows` detects, so the two models agree exactly on the
executions where the Rust code does not underflow. -/
def max_line_length (t : List Char) : ℕ :=
  let ps := newline_positions t
  if ps.isEmpty then utf8_len t
  else (ps.foldl (fun acc idx => (Nat.max (idx - acc.2 - 1) acc.1, idx)) (0, 0)).1

/-- Decides whether some step of the fold of `render.rs` line 38 computes
`idx - pre - 1` with `idx < pre + 1`, i.e. underflows on `usize`. -/
def line_fold_underflows (t : List Char) : Bool :=
  (fold_steps (newline_positions t)).any (fun p => p.2 < p.1 + 1)

/-- Spec-side splitter: the newline-delimited lines of a text, newline
characters not included, the (possibly empty) segment after the last
newline included. -/
def split_lines : List Char → List (List Char)
  | [] => [[]]
  | c :: cs =>
      if c = '\n' then [] :: split_lines cs
      else
        match split_lines cs with
        | [] => [[c]]
        | l :: ls => (c :: l) :: ls

/-- Spec-side rendering of the claim: the character length of the longest
newline-delimited line of the text. -/
def spec_max_line_chars (t : List Char) : ℕ :=
  ((split_lines t).map List.length).foldl Nat.max 0

/-! ## Canvas dimensions (`render.rs` lines 44-69) -/

/-- Model of `line_height = self.size * 1.2` (`render.rs` line 45), the f32
arithmetic carried out exactly over `ℚ`. -/
def line_height (size : ℚ) : ℚ :=
  size * (6 / 5)

/-- Model of `render_height = line_height * line_number as f32`
(`render.rs` line 48). -/
def render_height (size : ℚ) (line_number : ℕ) : ℚ :=
  line_height size * line_number

/-- Height of the allocated canvas (`render.rs` lines 65-69):
`render_height as u32 + padding * 2`. The cast `as u32` truncates toward
zero and saturates below at 0, which on `ℚ` is `Int.toNat ∘ Int.floor`. -/
def canvas_height (size : ℚ) (line_number padding : ℕ) : ℕ :=
  (⌊render_height size line_number⌋).toNat + padding * 2

/-- Width of the allocated canvas (`render.rs` lines 62-69):
`(max run line_w) as u32 + padding * 2`, with the same truncating cast. -/
def canvas_width (max_run_w : ℚ) (padding : ℕ) : ℕ :=
  (⌊max_run_w⌋).toNat + padding * 2

/-- Allocated image width in pixels, from the already-truncated
`max_width : u32` (`render.rs` lines 66-67). -/
def img_width (max_width padding : ℕ) : ℕ :=
  max_width + padding * 2

/-- Allocated image height in pixels, from the already-truncated
`max_height : u32` (`render.rs` lines 66-69). -/
def img_height (max_height padding : ℕ) : ℕ :=
  max_height + padding * 2

/-! ## Rasterizer (`render.rs` lines 71-104) -/

/-- One glyph callback emitted by `buffer.draw` (`render.rs` line 78):
`x, y : i32` are modelled as `ℤ`, `w, h : u32` as `ℕ`, and the
`cosmic_text::Color` argument as its four 8-bit channels. -/
structure Glyph where
  x : ℤ
  y : ℤ
  w : ℕ
  h : ℕ
  r : ℕ
  g : ℕ
  b : ℕ
  a : ℕ
deriving DecidableEq

/-- The pixel grid, as a total function from coordinates to RGB triples;
only coordinates inside the allocated dimensions are ever read. -/
def Canvas : Type :=
  ℕ → ℕ → ℕ × ℕ × ℕ

/-- Model of `scale` (`render.rs` line 93):
`(c as i32 * a as i32 / 255).clamp(0, 255)`. Both factors are 8-bit so the
product fits an `i32` and is nonnegative; `clamp(0, 255)` is
`min (max - 0) 255`. -/
def scale (a c : ℕ) : ℕ :=
  min (max (c * a / 255) 0) 255

/-- The skip condition of the glyph callback (`render.rs` lines 80-90).
`max_width as i32` is an exact embedding for widths below `2^31`, which
every allocatable canvas satisfies. -/
def skip_glyph (max_width max_height : ℕ) (g : Glyph) : Prop :=
  g.a = 0 ∨ g.x < 0 ∨ (max_width : ℤ) ≤ g.x ∨ g.y < 0 ∨
    (max_height : ℤ) ≤ g.y ∨ g.w ≠ 1 ∨ g.h ≠ 1

instance skip_glyph_dec (max_width max_height : ℕ) (g : Glyph) :
    Decidable (skip_glyph max_width max_height g) := by
  unfold skip_glyph
  infer_instance

/-- Model of one execution of the glyph callback (`render.rs` lines 78-103):
either skip, or write the single pixel
`(x + padding, y + padding)` with every channel scaled by alpha. -/
def draw_glyph (max_width max_height padding : ℕ) (buf : Canvas)
    (g : Glyph) : Canvas :=
  if skip_glyph max_width max_height g then buf
  else fun px py =>
    if px = g.x.toNat + padding ∧ py = g.y.toNat + padding then
      (scale g.a g.r, scale g.a g.g, scale g.a g.b)
    else buf px py

/-- Model of stage 3 of `render` (`render.rs` lines 66-104): allocate,
fill every pixel with `bg_color` (lines 72-74), then run the glyph
callbacks in order. -/
def render_canvas (max_width max_height padding : ℕ) (bg : ℕ × ℕ × ℕ)
    (gs : List Glyph) : Canvas :=
  gs.foldl (draw_glyph max_width max_height padding) (fun _ _ => bg)

/-- The pixels within `padding` of one of the four edges of the allocated
`img_width x img_height` canvas. -/
def in_margin (max_width max_height padding px py : ℕ) : Prop :=
  px < padding ∨ padding + max_width ≤ px ∨ py < padding ∨
    padding + max_height ≤ py

instance in_margin_dec (max_width max_height padding px py : ℕ) :
    Decidable (in_margin max_width max_height padding px py) := by
  unfold in_margin
  infer_instance

/-- The full rasterizer state of one `render` call, as a function of the
descriptor, the measured layout dimensions and the glyph callback sequence
the shaper produces. -/
def render_model (m : Metrics) (max_width max_height : ℕ)
    (gs : List Glyph) : Canvas :=
  render_canvas max_width max_height m.padding m.bg_color gs

/-! ## Helper lemmas -/

lemma hex_digit_val_lt (c : Char) : hex_digit_val c < 16 := by
  unfold hex_digit_val
  split_ifs <;> omega

lemma hex_val_fold_lt (ds : List Char) : ∀ acc : ℕ,
    ds.foldl (fun a c => a * 16 + hex_digit_val c) acc < (acc + 1) * 16 ^ ds.length := by
  induction ds with
  | nil =>
    intro acc
    simp
  | cons c ds ih =>
    intro acc
    have h1 := ih (acc * 16 + hex_digit_val c)
    have h2 : hex_digit_val c < 16 := hex_digit_val_lt c
    have h3 : acc * 16 + hex_digit_val c + 1 + 1 ≤ (acc + 1) * 16 + 1 := by omega
    calc (c :: ds).foldl (fun a c => a * 16 + hex_digit_val c) acc
        = ds.foldl (fun a c => a * 16 + hex_digit_val c) (acc * 16 + hex_digit_val c) := rfl
      _ < (acc * 16 + hex_digit_val c + 1) * 16 ^ ds.length := h1
      _ ≤ ((acc + 1) * 16) * 16 ^ ds.length :=
          Nat.mul_le_mul_right _ (by omega)
      _ = (acc + 1) * 16 ^ (c :: ds).length := by
          rw [List.length_cons, pow_succ]
          ring

lemma hex_val_lt (ds : List Char) : hex_val ds < 16 ^ ds.length := by
  have := hex_val_fold_lt ds 0
  simpa [hex_val] using this

lemma expand_hex_length (ds : List Char) (h : ds.length = 6 ∨ ds.length = 3) :
    (expand_hex ds).length = 6 := by
  rcases h with h | h
  · simp [expand_hex, h]
  · obtain ⟨a, b, c, rfl⟩ := List.length_eq_three.mp h
    rfl

lemma expand_hex_all (ds : List Char) (h : ds.all is_hex_digit = true) :
    (expand_hex ds).all is_hex_digit = true := by
  unfold expand_hex
  split
  · simp only [List.all_eq_true] at h ⊢
    intro c hc
    rw [List.mem_flatMap] at hc
    obtain ⟨a, ha, hcc⟩ := hc
    have : c = a := by
      simpa using hcc
    exact this ▸ h a ha
  · exact h

lemma is_hex_digit_iff (c : Char) :
    is_hex_digit c = true ↔
      ((48 ≤ c.toNat ∧ c.toNat ≤ 57) ∨ (97 ≤ c.toNat ∧ c.toNat ≤ 102) ∨
        (65 ≤ c.toNat ∧ c.toNat ≤ 70)) := by
  unfold is_hex_digit
  simp only [Bool.or_eq_true, Bool.and_eq_true, decide_eq_true_eq]
  tauto

lemma hex_color_match_iff (s : List Char) :
    hex_color_match s = true ↔ in_hex_lang s := by
  cases s with
  | nil =>
    simp [hex_color_match, in_hex_lang]
  | cons c rest =>
    simp only [hex_color_match, Bool.and_eq_true, Bool.or_eq_true, beq_iff_eq,
      List.all_eq_true, in_hex_lang]
    constructor
    · rintro ⟨⟨rfl, hlen⟩, hall⟩
      exact ⟨rest, rfl, hlen, fun c hc => (is_hex_digit_iff c).mp (hall c hc)⟩
    · rintro ⟨ds, heq, hlen, hall⟩
      injection heq with h1 h2
      subst h1
      subst h2
      exact ⟨⟨rfl, hlen⟩, fun c hc => (is_hex_digit_iff c).mpr (hall c hc)⟩

/-! ## Claim theorems -/

/-- C5: for every color string matching the hex pattern, `hex_to_rgb`
returns the channels `(n >>> 16) &&& 0xFF`, `(n >>> 8) &&& 0xFF`,
`n &&& 0xFF` of the integer `n` parsed from the six hex digits, a
three-digit form being first expanded by duplicating each nibble, so
`#RGB` parses to the same triple as the expanded `#RRGGBB`; in particular
`#fff` gives `(255, 255, 255)`, `#4B0082` gives `(75, 0, 130)` and `#000`
gives `(0, 0, 0)`. -/
theorem hex_to_rgb_spec :
    (∀ s : List Char, hex_color_match s = true →
      hex_to_rgb s =
        ((hex_val (expand_hex (s.drop 1)) >>> 16) &&& 0xFF,
          (hex_val (expand_hex (s.drop 1)) >>> 8) &&& 0xFF,
          hex_val (expand_hex (s.drop 1)) &&& 0xFF)) ∧
    (∀ c1 c2 c3 : Char,
      hex_to_rgb ['#', c1, c2, c3] = hex_to_rgb ['#', c1, c1, c2, c2, c3, c3]) ∧
    hex_to_rgb "#fff".toList = (255, 255, 255) ∧
    hex_to_rgb "#4B0082".toList = (75, 0, 130) ∧
    hex_to_rgb "#000".toList = (0, 0, 0) :=
  ⟨fun _ _ => rfl, fun _ _ _ => rfl, by decide, by decide, by decide⟩

/-- Witness for C5 at the concrete input `#4B0082`. -/
theorem hex_to_rgb_spec_witness :
    hex_to_rgb "#4B0082".toList =
      ((hex_val (expand_hex ("#4B0082".toList.drop 1)) >>> 16) &&& 0xFF,
        (hex_val (expand_hex ("#4B0082".toList.drop 1)) >>> 8) &&& 0xFF,
        hex_val (expand_hex ("#4B0082".toList.drop 1)) &&& 0xFF) :=
  hex_to_rgb_spec.1 "#4B0082".toList (by decide)

/-- C10: under the precondition that its argument matches the hex color
pattern, `hex_to_rgb` is total: the argument starts with `#` (one byte, so
the byte slice `hex[1..]` is valid), the digit string after optional nibble
expansion has exactly six hex digits, and its base-16 value fits in a
`u32`, so `u32::from_str_radix(..).unwrap()` never panics. -/
theorem hex_to_rgb_total (s : List Char) (h : hex_color_match s = true) :
    s.head? = some '#' ∧ (expand_hex (s.drop 1)).length = 6 ∧
      (expand_hex (s.drop 1)).all is_hex_digit = true ∧
      hex_val (expand_hex (s.drop 1)) < 2 ^ 32 := by
  cases s with
  | nil => simp [hex_color_match] at h
  | cons c rest =>
    simp only [hex_color_match, Bool.and_eq_true, Bool.or_eq_true, beq_iff_eq] at h
    obtain ⟨⟨hc, hlen⟩, hall⟩ := h
    subst hc
    refine ⟨rfl, ?_, ?_, ?_⟩
    · simpa using expand_hex_length rest hlen
    · simpa using expand_hex_all rest hall
    · calc hex_val (expand_hex ((('#' : Char) :: rest).drop 1))
          = hex_val (expand_hex rest) := rfl
        _ < 16 ^ (expand_hex rest).length := hex_val_lt _
        _ = 16 ^ 6 := by rw [expand_hex_length rest hlen]
        _ < 2 ^ 32 := by norm_num

/-- Witness for C10 at the concrete input `#fff`. -/
theorem hex_to_rgb_total_witness :
    "#fff".toList.head? = some '#' ∧
      (expand_hex ("#fff".toList.drop 1)).length = 6 ∧
      (expand_hex ("#fff".toList.drop 1)).all is_hex_digit = true ∧
      hex_val (expand_hex ("#fff".toList.drop 1)) < 2 ^ 32 :=
  hex_to_rgb_total "#fff".toList (by decide)

/-- C3: `Metrics::new` fails fatally with the exact message
"The color input must be in a legal hexadecimal format!" if and only if at
least one of the two supplied color strings is outside the regular language
of `#` followed by six or three hex digits; when both match, construction
succeeds. -/
theorem metrics_new_color_validation (text font : String) (size : ℚ)
    (color bg_color : String) (padding : ℕ) :
    (Metrics.new text font size color bg_color padding =
        Except.error "The color input must be in a legal hexadecimal format!" ↔
      (¬ in_hex_lang color.toList ∨ ¬ in_hex_lang bg_color.toList)) ∧
    (in_hex_lang color.toList → in_hex_lang bg_color.toList →
      Metrics.new text font size color bg_color padding =
        Except.ok
          { text := text
            font := resolve_family font
            size := size
            color := hex_to_rgb color.toList
            bg_color := hex_to_rgb bg_color.toList
            padding := padding }) := by
  have key : ∀ s : List Char, ¬ in_hex_lang s ↔ hex_color_match s = false := by
    intro s
    rw [← hex_color_match_iff]
    cases hex_color_match s <;> simp
  constructor
  · rw [show (¬ in_hex_lang color.toList ∨ ¬ in_hex_lang bg_color.toList) ↔
        (hex_color_match color.toList = false ∨ hex_color_match bg_color.toList = false) by
      rw [key, key]]
    cases hc : hex_color_match color.toList <;> cases hb : hex_color_match bg_color.toList <;>
      simp only [String.toList] at hc hb <;>
      simp [Metrics.new, String.toList, hc, hb]
  · intro h1 h2
    rw [← hex_color_match_iff] at h1 h2
    simp only [String.toList] at h1 h2
    simp [Metrics.new, String.toList, h1, h2]

/-- Witness for C3 at concrete valid colors `#fff` and `#000`. -/
theorem metrics_new_color_validation_witness :
    Metrics.new "hi" "Monospace" 18 "#fff" "#000" 8 =
      Except.ok
        { text := "hi"
          font := resolve_family "Monospace"
          size := 18
          color := hex_to_rgb "#fff".toList
          bg_color := hex_to_rgb "#000".toList
          padding := 8 } :=
  (metrics_new_color_validation "hi" "Monospace" 18 "#fff" "#000" 8).2
    ⟨['f', 'f', 'f'], by decide, by decide, by decide⟩
    ⟨['0', '0', '0'], by decide, by decide, by decide⟩

/-- C1: evaluation of `max_line_length` at the failing inputs. For
`"a\nb"` the longest line has 1 character but the fold yields 0 (the first
segment is counted one short and the segment after the last newline is not
counted at all); for the spec's own S3 text `"hi\nworld"` the longest line
has 5 characters but the fold yields 1; for the single-line text `"é"` the
code measures 2 (UTF-8 bytes) where the longest line has 1 character. -/
theorem max_line_length_miscounts :
    max_line_length ['a', '\n', 'b'] = 0 ∧
      spec_max_line_chars ['a', '\n', 'b'] = 1 ∧
      max_line_length ['h', 'i', '\n', 'w', 'o', 'r', 'l', 'd'] = 1 ∧
      spec_max_line_chars ['h', 'i', '\n', 'w', 'o', 'r', 'l', 'd'] = 5 ∧
      max_line_length ['é'] = 2 ∧
      spec_max_line_chars ['é'] = 1 := by
  decide

/-- C8: for the text `"\na"`, whose first character is a newline, the first
step of the longest-line fold has `pre = 0` and `idx = 0`, so the `usize`
subtraction `idx - pre - 1` underflows (contrary to the claim that
`idx ≥ pre + 1` holds in every step). -/
theorem line_fold_underflow_at_leading_newline :
    line_fold_underflows ['\n', 'a'] = true ∧
      fold_steps (newline_positions ['\n', 'a']) = [(0, 0)] := by
  decide

/-- C2 counterexample: for `text = "hi\nworld"` with the defaults
`size = 18`, `padding = 8` the allocated height is 59, strictly below the
claimed `⌈18 · 1.2 · 2⌉ + 2·8 = 60` (the cast `as u32` truncates, it does
not take the ceiling); and for a render with no layout runs the allocated
width is exactly `2 · padding = 16`, strictly below the claimed minimum
`2 · padding + 1`. -/
theorem canvas_dims_ceiling_counterexample :
    canvas_height 18 2 8 = 59 ∧
      (⌈(18 * (6 / 5) * 2 : ℚ)⌉).toNat + 2 * 8 = 60 ∧
      canvas_height 18 2 8 < (⌈(18 * (6 / 5) * 2 : ℚ)⌉).toNat + 2 * 8 ∧
      canvas_width 0 8 = 16 ∧
      canvas_width 0 8 < 2 * 8 + 1 := by
  have h59 : canvas_height 18 2 8 = 59 := by
    unfold canvas_height render_height line_height
    rw [show ((18 : ℚ) * (6 / 5) * ((2 : ℕ) : ℚ)) = 216 / 5 by norm_num]
    rw [show ⌊(216 / 5 : ℚ)⌋ = 43 by rw [Int.floor_eq_iff]; norm_num]
    rfl
  have h60 : (⌈(18 * (6 / 5) * 2 : ℚ)⌉).toNat + 2 * 8 = 60 := by
    rw [show ((18 : ℚ) * (6 / 5) * 2) = 216 / 5 by norm_num]
    rw [show ⌈(216 / 5 : ℚ)⌉ = 44 by rw [Int.ceil_eq_iff]; norm_num]
    rfl
  have h16 : canvas_width 0 8 = 16 := by
    unfold canvas_width
    norm_num
  exact ⟨h59, h60, by omega, h16, by omega⟩

/-- C2 (amended): the canvas is allocated with dimensions
`(⌊W_actual⌋ + 2·padding) × (⌊H⌋ + 2·padding)` where
`H = size · 1.2 · line_count` — the `as u32` casts truncate toward zero
(saturating at 0) instead of taking the ceiling — so the height equals
`⌊size · 1.2 · line_count⌋ + 2·padding` and the width is at least
`2·padding` (with equality when no run is laid out); for
`text = "hi\nworld"` with defaults the height is `⌊18·1.2·2⌋ + 16 = 59`. -/
theorem canvas_dims_amended (size max_run_w : ℚ) (line_number pad : ℕ) :
    canvas_height size line_number pad =
        (⌊size * (6 / 5) * (line_number : ℚ)⌋).toNat + 2 * pad ∧
      2 * pad ≤ canvas_width max_run_w pad ∧
      canvas_height 18 2 8 = 59 := by
  refine ⟨?_, ?_, ?_⟩
  · unfold canvas_height render_height line_height
    omega
  · unfold canvas_width
    omega
  · unfold canvas_height render_height line_height
    rw [show ((18 : ℚ) * (6 / 5) * ((2 : ℕ) : ℚ)) = 216 / 5 by norm_num]
    rw [show ⌊(216 / 5 : ℚ)⌋ = 43 by rw [Int.floor_eq_iff]; norm_num]
    rfl

/-- C4: a glyph callback writes nothing when its skip condition holds
(`a = 0`, out-of-range `x` or `y`, or `w ≠ 1` or `h ≠ 1`); otherwise it
writes exactly one pixel, at `(x + padding, y + padding)`, whose channels
are `clamp(c·a/255, 0, 255)` applied to each of `r`, `g`, `b` of the glyph
color, and leaves every other pixel unchanged. -/
theorem glyph_callback_spec (max_width max_height padding : ℕ) (buf : Canvas)
    (g : Glyph) :
    (skip_glyph max_width max_height g →
      draw_glyph max_width max_height padding buf g = buf) ∧
    (¬ skip_glyph max_width max_height g →
      draw_glyph max_width max_height padding buf g
          (g.x.toNat + padding) (g.y.toNat + padding) =
        (min (max (g.r * g.a / 255) 0) 255, min (max (g.g * g.a / 255) 0) 255,
          min (max (g.b * g.a / 255) 0) 255) ∧
      ∀ px py, ¬ (px = g.x.toNat + padding ∧ py = g.y.toNat + padding) →
        draw_glyph max_width max_height padding buf g px py = buf px py) := by
  refine ⟨fun h => ?_, fun h => ⟨?_, fun px py hne => ?_⟩⟩
  · unfold draw_glyph
    rw [if_pos h]
  · unfold draw_glyph
    rw [if_neg h]
    simp [scale]
  · unfold draw_glyph
    rw [if_neg h]
    exact if_neg hne

/-- Witness for C4 at a concrete non-skipped glyph. -/
theorem glyph_callback_spec_witness :
    draw_glyph 3 3 2 (fun _ _ => (9, 9, 9)) ⟨1, 1, 1, 1, 200, 100, 50, 255⟩ 3 3 =
      (min (max (200 * 255 / 255) 0) 255, min (max (100 * 255 / 255) 0) 255,
        min (max (50 * 255 / 255) 0) 255) :=
  ((glyph_callback_spec 3 3 2 (fun _ _ => (9, 9, 9))
      ⟨1, 1, 1, 1, 200, 100, 50, 255⟩).2 (by decide)).1

lemma draw_glyph_margin (max_width max_height padding px py : ℕ) (buf : Canvas)
    (g : Glyph) (h : in_margin max_width max_height padding px py) :
    draw_glyph max_width max_height padding buf g px py = buf px py := by
  by_cases hs : skip_glyph max_width max_height g
  · unfold draw_glyph
    rw [if_pos hs]
  · unfold draw_glyph
    rw [if_neg hs]
    have hne : ¬ (px = g.x.toNat + padding ∧ py = g.y.toNat + padding) := by
      unfold skip_glyph at hs
      push_neg at hs
      obtain ⟨-, hx0, hxW, hy0, hyH, -, -⟩ := hs
      unfold in_margin at h
      rintro ⟨h1, h2⟩
      omega
    exact if_neg hne

/-- C6: every pixel of the final canvas lying within `padding` pixels of
any of the four edges equals `bg_color` exactly: the background fill sets
every pixel to `bg_color`, and no glyph write ever lands inside the
margin. -/
theorem padding_margin_bg (max_width max_height padding : ℕ) (bg : ℕ × ℕ × ℕ)
    (gs : List Glyph) (px py : ℕ)
    (h : in_margin max_width max_height padding px py) :
    render_canvas max_width max_height padding bg gs px py = bg := by
  unfold render_canvas
  have key : ∀ (gs : List Glyph) (buf : Canvas),
      (gs.foldl (draw_glyph max_width max_height padding) buf) px py = buf px py := by
    intro gs
    induction gs with
    | nil => intro buf; rfl
    | cons g gs ih =>
      intro buf
      rw [List.foldl_cons, ih, draw_glyph_margin max_width max_height padding px py buf g h]
  rw [key]

/-- Witness for C6 at a concrete render whose glyph list is nonempty. -/
theorem padding_margin_bg_witness :
    render_canvas 2 2 1 (1, 2, 3) [⟨0, 0, 1, 1, 9, 9, 9, 255⟩] 0 0 = (1, 2, 3) :=
  padding_margin_bg 2 2 1 (1, 2, 3) [⟨0, 0, 1, 1, 9, 9, 9, 255⟩] 0 0 (by decide)

/-- C7: rendering is deterministic — two runs with equal descriptors,
equal measured layout dimensions and identical glyph callback sequences
produce identical pixel buffers. -/
theorem render_deterministic (m₁ m₂ : Metrics) (mw₁ mw₂ mh₁ mh₂ : ℕ)
    (gs₁ gs₂ : List Glyph) (hm : m₁ = m₂) (hw : mw₁ = mw₂) (hh : mh₁ = mh₂)
    (hg : gs₁ = gs₂) :
    render_model m₁ mw₁ mh₁ gs₁ = render_model m₂ mw₂ mh₂ gs₂ := by
  rw [hm, hw, hh, hg]

/-- Witness for C7 at a concrete pair of identical runs. -/
theorem render_deterministic_witness :
    render_model ⟨"hi", Family.Monospace, 18, (255, 255, 255), (30, 30, 46), 8⟩ 4 4
        [⟨0, 0, 1, 1, 1, 1, 1, 1⟩] =
      render_model ⟨"hi", Family.Monospace, 18, (255, 255, 255), (30, 30, 46), 8⟩ 4 4
        [⟨0, 0, 1, 1, 1, 1, 1, 1⟩] :=
  render_deterministic _ _ _ _ _ _ _ _ rfl rfl rfl rfl

/-- C9: every `put_pixel` call is in bounds — under the callback guards
`0 ≤ x < max_width` and `0 ≤ y < max_height`, the written coordinate
`(x + padding, y + padding)` is strictly inside the allocated
`(max_width + 2·padding) × (max_height + 2·padding)` canvas. -/
theorem put_pixel_in_bounds (max_width max_height padding : ℕ) (g : Glyph)
    (h : ¬ skip_glyph max_width max_height g) :
    g.x.toNat + padding < img_width max_width padding ∧
      g.y.toNat + padding < img_height max_height padding := by
  unfold skip_glyph at h
  push_neg at h
  obtain ⟨-, hx0, hxW, hy0, hyH, -, -⟩ := h
  unfold img_width img_height
  omega

/-- Witness for C9 at a concrete non-skipped glyph. -/
theorem put_pixel_in_bounds_witness :
    (⟨0, 0, 1, 1, 1, 1, 1, 1⟩ : Glyph).x.toNat + 8 < img_width 5 8 ∧
      (⟨0, 0, 1, 1, 1, 1, 1, 1⟩ : Glyph).y.toNat + 8 < img_height 5 8 :=
  put_pixel_in_bounds 5 5 8 ⟨0, 0, 1, 1, 1, 1, 1, 1⟩ (by decide)

end Jbl
